import Mathlib

/-!
Verification of the two-candidate online voting application (`app.py`).

The application is a Streamlit front-end over a SQLite store with three
tables (`students`, `votes`, `voting_settings`) plus per-session state for
winner declaration.  This file gives a shallow embedding of the data model
and of the operations the specification talks about:

* string normalisation (`str.strip().upper()`, `str.strip().title()`),
* `register_student`, `is_student_registered`, `has_student_voted`,
  `cast_vote`, `get_vote_results`,
* the voting-window engine `get_voting_time_status` / `is_voting_active`,
* winner resolution and `auto_declare_winner_if_time_ended`, together with
  the admin "Set Schedule" handler that resets the auto-declaration marker,
* the registration-form validation from `show_signup_page`.

Timestamps are modelled as integers (absolute instants in the single fixed
IST timezone the app uses); the SQLite store is modelled as explicit lists
of rows.  The `votes` table has `id INTEGER PRIMARY KEY AUTOINCREMENT` as
its only key and the app never issues `PRAGMA foreign_keys = ON`, so an
insert into `votes` is never rejected by a constraint; the embedding of
`cast_vote` reflects that.
-/

namespace Voting

/-- Models Python `str.strip()`: remove leading and trailing whitespace. -/
def pyStrip (s : String) : String :=
  ⟨((s.data.dropWhile Char.isWhitespace).reverse.dropWhile Char.isWhitespace).reverse⟩

/-- Models Python `str.upper()` (ASCII letters, which is all the app stores). -/
def pyUpper (s : String) : String :=
  ⟨s.data.map Char.toUpper⟩

/-- Models the `.strip().upper()` pipeline applied to every register number
before any lookup or insert. -/
def normReg (s : String) : String :=
  pyUpper (pyStrip s)

/-- Helper for `pyTitle`: the Boolean records whether the previous character
was alphabetic. -/
def pyTitleAux : Bool → List Char → List Char
  | _, [] => []
  | prevAlpha, c :: cs =>
    (if prevAlpha then c.toLower else c.toUpper) :: pyTitleAux c.isAlpha cs

/-- Models Python `str.title()` (ASCII): first letter of each word upper-cased,
the rest lower-cased.  Length-preserving. -/
def pyTitle (s : String) : String :=
  ⟨pyTitleAux false s.data⟩

/-- The fixed two-element candidate set of the app. -/
inductive Candidate : Type where
  | Messi : Candidate
  | Ronaldo : Candidate
deriving DecidableEq, Repr

/-- A declared winner: one of the candidates or a tie. -/
inductive Winner : Type where
  | Messi : Winner
  | Ronaldo : Winner
  | Tie : Winner
deriving DecidableEq, Repr

/-- A row of the `votes` table (the surrogate `id` and `vote_time` columns
play no role in any claim and are omitted). -/
structure VoteRow : Type where
  registerNumber : String
  candidate : Candidate
deriving DecidableEq, Repr

/-- The singleton `voting_settings` row: `voting_start_time`,
`voting_end_time` (both nullable), `voting_enabled`, `auto_declare_winner`. -/
structure Settings : Type where
  startTime : Option Int
  endTime : Option Int
  votingEnabled : Bool
  autoDeclareWinner : Bool
deriving DecidableEq, Repr

/-- The SQLite store: `students` rows are `(register_number, name)` pairs
with `register_number` the `PRIMARY KEY`; `votes` rows carry no uniqueness
constraint on `register_number`; `settings` is the latest
`voting_settings` row, if any. -/
structure DB : Type where
  students : List (String × String)
  votes : List VoteRow
  settings : Option Settings
deriving DecidableEq, Repr

/-- The per-session Streamlit state the winner-declaration logic uses. -/
structure Session : Type where
  winnerDeclared : Bool
  declaredWinner : Option Winner
  autoDeclared : Bool
  autoDeclarationProcessed : Bool
deriving DecidableEq, Repr

/-- Embeds `register_student` (app.py:81-103): the inputs are cleaned with
`.strip().upper()` / `.strip().title()` and inserted; the `PRIMARY KEY`
constraint on `register_number` raises `sqlite3.IntegrityError` on a
duplicate, caught and turned into a `False` result with the store
untouched.  The returned Boolean is the success flag (the accompanying
message string is not modelled). -/
def register_student (db : DB) (raw_register_number raw_name : String) :
    DB × Bool :=
  let register_number := normReg raw_register_number
  let name := pyTitle (pyStrip raw_name)
  if db.students.any (fun p => p.1 == register_number) then
    (db, false)
  else
    ({ db with students := db.students ++ [(register_number, name)] }, true)

/-- Embeds `is_student_registered` (app.py:106-113): lookup by the
normalised register number. -/
def is_student_registered (db : DB) (register_number : String) : Bool :=
  db.students.any (fun p => p.1 == normReg register_number)

/-- Embeds `has_student_voted` (app.py:116-123): lookup in `votes` by the
normalised register number. -/
def has_student_voted (db : DB) (register_number : String) : Bool :=
  db.votes.any (fun v => v.registerNumber == normReg register_number)

/-- Embeds `cast_vote` (app.py:126-137): a bare
`INSERT INTO votes (register_number, candidate)` with the register number
normalised.  The `votes` table has no uniqueness constraint on
`register_number` and foreign keys are not enabled, so the insert always
succeeds; the `except` branch only catches store-level failures, which the
embedding does not model. -/
def cast_vote (db : DB) (raw_register_number : String) (candidate : Candidate) :
    DB × Bool :=
  ({ db with
      votes := db.votes ++ [⟨normReg raw_register_number, candidate⟩] }, true)

/-- Embeds `get_vote_results` (app.py:175-192): `GROUP BY candidate` counts
written over the dictionary initialised to zero for both candidates, so
every candidate of the two-element set gets a count, defaulting to 0. -/
def get_vote_results (db : DB) (c : Candidate) : Nat :=
  db.votes.countP (fun v => v.candidate == c)

/-- Embeds `get_total_votes` (app.py:195-202). -/
def get_total_votes (db : DB) : Nat :=
  db.votes.length

/-- The five status values returned by `get_voting_time_status` (the string
field `status` of the returned dictionary). -/
inductive VStatus : Type where
  | no_schedule : VStatus
  | disabled : VStatus
  | enabled : VStatus
  | not_started : VStatus
  | ended : VStatus
  | active : VStatus
deriving DecidableEq, Repr

/-- The fields of the dictionary returned by `get_voting_time_status` that
the logic consumes (the `message` string and echoed `start_time`/`end_time`
fields are presentation only). -/
structure TimeStatus : Type where
  status : VStatus
  can_vote : Bool
  time_remaining : Option Int
deriving DecidableEq, Repr

/-- Embeds `get_voting_time_status` (app.py:288-350): `no_schedule` with no
settings row; `disabled` when `voting_enabled` is off; open-ended `enabled`
when either bound is missing; otherwise `not_started` when `now < start`,
`ended` when `now > end`, and `active` with `time_remaining = end - now` in
between (boundaries inclusive). -/
def get_voting_time_status (db : DB) (now : Int) : TimeStatus :=
  match db.settings with
  | none => ⟨VStatus.no_schedule, false, none⟩
  | some s =>
    if !s.votingEnabled then
      ⟨VStatus.disabled, false, none⟩
    else
      match s.startTime, s.endTime with
      | some start_time, some end_time =>
        if now < start_time then
          ⟨VStatus.not_started, false, none⟩
        else if now > end_time then
          ⟨VStatus.ended, false, none⟩
        else
          ⟨VStatus.active, true, some (end_time - now)⟩
      | _, _ =>
        ⟨if s.votingEnabled then VStatus.enabled else VStatus.disabled,
         s.votingEnabled, none⟩

/-- Embeds `is_voting_active` (app.py:265-285): `False` with no settings or
voting disabled; with both bounds set, `start <= now <= end`; otherwise the
`voting_enabled` flag. -/
def is_voting_active (db : DB) (now : Int) : Bool :=
  match db.settings with
  | none => false
  | some s =>
    if !s.votingEnabled then
      false
    else
      match s.startTime, s.endTime with
      | some start_time, some end_time => decide (start_time ≤ now ∧ now ≤ end_time)
      | _, _ => s.votingEnabled

/-- Embeds the winner computation shared by
`auto_declare_winner_if_time_ended` (app.py:367-375) and the Declare Winner
tab (app.py:947-955): both first require `total_votes > 0` and otherwise
decline to resolve any winner; with votes present, the strictly greater
count wins and equal counts give a tie. -/
def resolve_winner (messi ronaldo : Nat) : Option Winner :=
  if messi + ronaldo > 0 then
    if messi > ronaldo then some Winner.Messi
    else if ronaldo > messi then some Winner.Ronaldo
    else some Winner.Tie
  else
    none

/-- Embeds `auto_declare_winner_if_time_ended` (app.py:353-383): returns
`False` with no settings or `auto_declare_winner` off; declares only when
the window status is `ended`, no winner has been declared, the
auto-declaration marker is unset, and at least one vote exists; a
successful declaration sets all the session flags including the marker. -/
def auto_declare_winner_if_time_ended (db : DB) (sess : Session) (now : Int) :
    Session × Bool :=
  match db.settings with
  | none => (sess, false)
  | some s =>
    if !s.autoDeclareWinner then
      (sess, false)
    else
      let time_status := get_voting_time_status db now
      if time_status.status = VStatus.ended ∧ sess.winnerDeclared = false ∧
          sess.autoDeclarationProcessed = false then
        match resolve_winner (get_vote_results db Candidate.Messi)
            (get_vote_results db Candidate.Ronaldo) with
        | some w =>
          ({ winnerDeclared := true, declaredWinner := some w,
             autoDeclared := true, autoDeclarationProcessed := true }, true)
        | none => (sess, false)
      else
        (sess, false)

/-- Embeds `set_voting_time` (app.py:206-241): deletes any existing
`voting_settings` row and inserts the new one with `voting_enabled = 1`. -/
def set_voting_time (db : DB) (start_time end_time : Option Int)
    (auto_declare : Bool) : DB :=
  { db with
      settings := some
        { startTime := start_time, endTime := end_time,
          votingEnabled := true, autoDeclareWinner := auto_declare } }

/-- Embeds the admin "Set Schedule" submit handler (app.py:1111-1128):
rejects `end <= start` and a start in the past; on success it stores the
new schedule and clears the `auto_declaration_processed` session marker.
The returned Boolean reports whether the schedule was stored. -/
def set_schedule_form (db : DB) (sess : Session) (now : Int)
    (start_datetime end_datetime : Int) (auto_declare : Bool) :
    DB × Session × Bool :=
  if end_datetime ≤ start_datetime then
    (db, sess, false)
  else if start_datetime < now then
    (db, sess, false)
  else
    (set_voting_time db (some start_datetime) (some end_datetime) auto_declare,
     { sess with autoDeclarationProcessed := false }, true)

/-- Outcome of a registration-form submission. -/
inductive RegOutcome : Type where
  | invalid_input : RegOutcome
  | duplicate : RegOutcome
  | ok : RegOutcome
deriving DecidableEq, Repr

/-- Embeds the registration form of `show_signup_page` (app.py:638-661):
the text inputs are already `.strip().upper()` / `.strip().title()`
normalised; submission rejects an empty field, a register number shorter
than 3 characters, or a name shorter than 2 characters, and only otherwise
calls `register_student`. -/
def signup_submit (db : DB) (raw_register_number raw_name : String) :
    DB × RegOutcome :=
  let register_number := normReg raw_register_number
  let name := pyTitle (pyStrip raw_name)
  if register_number == "" || name == "" then
    (db, RegOutcome.invalid_input)
  else if register_number.length < 3 then
    (db, RegOutcome.invalid_input)
  else if name.length < 2 then
    (db, RegOutcome.invalid_input)
  else
    match register_student db register_number name with
    | (db', true) => (db', RegOutcome.ok)
    | (db', false) => (db', RegOutcome.duplicate)

end Voting

namespace Voting

example : normReg "  ab12  " = "AB12" := by decide

example : pyTitle "  john doe" = "  John Doe" := by decide

/-- C1: the claim says a `castVote` call for a register number that already
has a vote fails with `AlreadyVoted`, leaving exactly one vote.  The code
contradicts this: with a vote for `AB12` already stored (so
`has_student_voted` is `true`), `cast_vote` succeeds anyway and the store
then holds two votes for `AB12` — the `votes` table has no uniqueness
constraint on `register_number` and `cast_vote` performs no check. -/
theorem cast_vote_records_duplicate_vote :
    has_student_voted ⟨[("AB12", "Ann")], [⟨"AB12", Candidate.Messi⟩], none⟩
      "AB12" = true ∧
    (cast_vote ⟨[("AB12", "Ann")], [⟨"AB12", Candidate.Messi⟩], none⟩
      "AB12" Candidate.Ronaldo).2 = true ∧
    ((cast_vote ⟨[("AB12", "Ann")], [⟨"AB12", Candidate.Messi⟩], none⟩
      "AB12" Candidate.Ronaldo).1.votes.countP
        (fun v => v.registerNumber == "AB12")) = 2 := by
  decide

/-- C2: the claim says `castVote` re-verifies the window status and the
registration at write time, failing with `WindowClosed` or `NotRegistered`
and inserting nothing.  The code contradicts this: with no schedule set
(window not active) and an unregistered register number, `cast_vote` still
succeeds and inserts a vote row. -/
theorem cast_vote_skips_precondition_checks :
    is_voting_active ⟨[], [], none⟩ 0 = false ∧
    (get_voting_time_status ⟨[], [], none⟩ 0).status = VStatus.no_schedule ∧
    is_student_registered ⟨[], [], none⟩ "ZZ99" = false ∧
    cast_vote ⟨[], [], none⟩ "ZZ99" Candidate.Messi =
      (⟨[], [⟨"ZZ99", Candidate.Messi⟩], none⟩, true) := by
  decide

/-- C4 counterexample: the claim says that when both counts are equal —
including when both are zero — the result is `Tie`.  With zero votes the
code resolves no winner at all (both the auto path and the admin tab are
guarded by `total_votes > 0`): `resolve_winner 0 0` is `none`, not `Tie`,
and auto-declaration at an ended window with zero votes declares nothing. -/
theorem resolve_winner_zero_votes_not_tie :
    get_vote_results ⟨[], [], none⟩ Candidate.Messi = 0 ∧
    get_vote_results ⟨[], [], none⟩ Candidate.Ronaldo = 0 ∧
    resolve_winner 0 0 ≠ some Winner.Tie ∧
    auto_declare_winner_if_time_ended ⟨[], [], some ⟨some 0, some 1, true, true⟩⟩
      ⟨false, none, false, false⟩ 5 = (⟨false, none, false, false⟩, false) := by
  decide

/-- C4 (amended): the candidate with a strictly greater count is the
winner; equal nonzero counts resolve to `Tie`; with zero total votes no
winner is resolved (the code declines to declare rather than declaring a
tie). -/
theorem resolve_winner_spec (messi ronaldo : Nat) :
    (messi > ronaldo → resolve_winner messi ronaldo = some Winner.Messi) ∧
    (ronaldo > messi → resolve_winner messi ronaldo = some Winner.Ronaldo) ∧
    (messi = ronaldo → 0 < messi → resolve_winner messi ronaldo = some Winner.Tie) ∧
    (messi = 0 → ronaldo = 0 → resolve_winner messi ronaldo = none) := by
  unfold resolve_winner
  refine ⟨?_, ?_, ?_, ?_⟩ <;> intros
  all_goals split_ifs <;> first | rfl | omega

/-- Witness for `resolve_winner_spec` at the concrete tallies (2,1) and
(0,0). -/
theorem resolve_winner_spec_witness :
    resolve_winner 2 1 = some Winner.Messi ∧ resolve_winner 0 0 = none :=
  ⟨(resolve_winner_spec 2 1).1 (by decide),
   (resolve_winner_spec 0 0).2.2.2 rfl rfl⟩

/-- C6: when a student with the same normalised register number already
exists, `register_student` fails (the `PRIMARY KEY` constraint raises
`IntegrityError`, reported as the duplicate-registration error) and the
store — in particular the student table and its count — is unchanged. -/
theorem register_duplicate_rejected (db : DB) (rn name2 : String)
    (h : ∃ p ∈ db.students, p.1 = normReg rn) :
    register_student db rn name2 = (db, false) := by
  obtain ⟨p, hmem, hkey⟩ := h
  unfold register_student
  rw [if_pos]
  exact List.any_eq_true.mpr ⟨p, hmem, by simp [hkey]⟩

/-- Witness for `register_duplicate_rejected`: re-registering `" ab12"`
against a store already holding key `AB12` fails and leaves the store as
it was. -/
theorem register_duplicate_rejected_witness :
    register_student ⟨[("AB12", "Ann")], [], none⟩ " ab12" "Other" =
      (⟨[("AB12", "Ann")], [], none⟩, false) :=
  register_duplicate_rejected ⟨[("AB12", "Ann")], [], none⟩ " ab12" "Other"
    ⟨("AB12", "Ann"), by decide, by decide⟩

/-- C7: `get_vote_results` yields a count for both candidates of the
two-element candidate set — a candidate with no votes gets 0, and the two
counts always sum to the total number of votes — and after the votes
{Messi, Messi, Ronaldo} it returns 2 for Messi and 1 for Ronaldo. -/
theorem vote_results_total :
    (∀ db c, (∀ v ∈ db.votes, v.candidate ≠ c) → get_vote_results db c = 0) ∧
    (∀ db, get_vote_results db Candidate.Messi +
      get_vote_results db Candidate.Ronaldo = get_total_votes db) ∧
    (get_vote_results ⟨[], [⟨"A1", Candidate.Messi⟩, ⟨"A2", Candidate.Messi⟩,
        ⟨"A3", Candidate.Ronaldo⟩], none⟩ Candidate.Messi = 2 ∧
     get_vote_results ⟨[], [⟨"A1", Candidate.Messi⟩, ⟨"A2", Candidate.Messi⟩,
        ⟨"A3", Candidate.Ronaldo⟩], none⟩ Candidate.Ronaldo = 1) := by
  refine ⟨?_, ?_, by decide⟩
  · intro db c h
    simp only [get_vote_results, List.countP_eq_zero]
    intro v hv
    simpa using h v hv
  · intro db
    simp only [get_vote_results, get_total_votes]
    induction db.votes with
    | nil => rfl
    | cons v vs ih =>
      cases hc : v.candidate <;>
        simp [List.countP_cons, hc] <;> omega

/-- Witness for `vote_results_total`: the empty store has count 0 for
Messi. -/
theorem vote_results_total_witness :
    get_vote_results ⟨[], [], none⟩ Candidate.Messi = 0 :=
  vote_results_total.1 ⟨[], [], none⟩ Candidate.Messi (by simp)

/-- C10: the Boolean gate `is_voting_active` agrees with the `can_vote`
field of `get_voting_time_status` on every store state (no schedule,
disabled, open-ended enabled, or both bounds set) and every current time. -/
theorem is_voting_active_eq_can_vote (db : DB) (now : Int) :
    is_voting_active db now = (get_voting_time_status db now).can_vote := by
  rcases db with ⟨students, votes, _ | ⟨_ | s, _ | e, _ | _, ad⟩⟩ <;>
    simp only [is_voting_active, get_voting_time_status] <;>
    split_ifs <;>
    simp_all

/-- C3: for a schedule with both bounds set, `start < end` and voting
enabled, the status is `not_started` exactly when `now < start`, `active`
exactly when `start ≤ now ≤ end` (so `now = end` is still `active`),
`ended` exactly when `now > end`; `can_vote` holds exactly in the `active`
case, where `time_remaining` is `end - now`. -/
theorem voting_status_trichotomy (students : List (String × String))
    (votes : List VoteRow) (ad : Bool) (start_time end_time now : Int)
    (hlt : start_time < end_time) :
    ((get_voting_time_status ⟨students, votes,
        some ⟨some start_time, some end_time, true, ad⟩⟩ now).status =
      VStatus.not_started ↔ now < start_time) ∧
    ((get_voting_time_status ⟨students, votes,
        some ⟨some start_time, some end_time, true, ad⟩⟩ now).status =
      VStatus.active ↔ start_time ≤ now ∧ now ≤ end_time) ∧
    ((get_voting_time_status ⟨students, votes,
        some ⟨some start_time, some end_time, true, ad⟩⟩ now).status =
      VStatus.ended ↔ end_time < now) ∧
    ((get_voting_time_status ⟨students, votes,
        some ⟨some start_time, some end_time, true, ad⟩⟩ now).can_vote = true ↔
      (get_voting_time_status ⟨students, votes,
        some ⟨some start_time, some end_time, true, ad⟩⟩ now).status =
      VStatus.active) ∧
    ((get_voting_time_status ⟨students, votes,
        some ⟨some start_time, some end_time, true, ad⟩⟩ now).status =
      VStatus.active →
      (get_voting_time_status ⟨students, votes,
        some ⟨some start_time, some end_time, true, ad⟩⟩ now).time_remaining =
      some (end_time - now)) := by
  simp only [get_voting_time_status]
  split_ifs with h₁ h₂ <;> simp_all
  omega

/-- Witness for `voting_status_trichotomy` at the inclusive right boundary
`now = end_time`: with the window [0, 10] at time 10 the status is
`active`. -/
theorem voting_status_trichotomy_witness :
    (get_voting_time_status ⟨[], [], some ⟨some 0, some 10, true, true⟩⟩
      10).status = VStatus.active :=
  ((voting_status_trichotomy [] [] true 0 10 10 (by decide)).2.1).mpr
    (by decide)

/-- C5: auto-declaration fires at most once per schedule lifetime — a call
that declares does so only with the window status `ended`, the
`auto_declare_winner` flag set and the session marker unset, and it sets
the marker; while the marker is set every call declares nothing and leaves
the session unchanged; a successful schedule replacement through the Set
Schedule form clears the marker and stores the new bounds; and at a
concrete ended window with a vote and the marker unset, the call does
fire. -/
theorem auto_declare_fires_once :
    (∀ db sess now, (auto_declare_winner_if_time_ended db sess now).2 = true →
      (get_voting_time_status db now).status = VStatus.ended ∧
      (∃ s, db.settings = some s ∧ s.autoDeclareWinner = true) ∧
      sess.autoDeclarationProcessed = false ∧
      (auto_declare_winner_if_time_ended db sess
        now).1.autoDeclarationProcessed = true) ∧
    (∀ db sess now, sess.autoDeclarationProcessed = true →
      auto_declare_winner_if_time_ended db sess now = (sess, false)) ∧
    (∀ db sess now s e ad, (set_schedule_form db sess now s e ad).2.2 = true →
      (set_schedule_form db sess now s e
        ad).2.1.autoDeclarationProcessed = false ∧
      (set_schedule_form db sess now s e ad).1.settings =
        some ⟨some s, some e, true, ad⟩) ∧
    ((auto_declare_winner_if_time_ended
        ⟨[("AB12", "Ann")], [⟨"AB12", Candidate.Messi⟩],
          some ⟨some 0, some 1, true, true⟩⟩
        ⟨false, none, false, false⟩ 5) =
      (⟨true, some Winner.Messi, true, true⟩, true)) := by
  refine ⟨?_, ?_, ?_, by decide⟩
  · intro db sess now h
    rcases db with ⟨students, votes, _ | s⟩
    · simp [auto_declare_winner_if_time_ended] at h
    · simp only [auto_declare_winner_if_time_ended] at h ⊢
      split_ifs at h ⊢ with h₁ h₂
      rcases hr : resolve_winner
          (get_vote_results ⟨students, votes, some s⟩ Candidate.Messi)
          (get_vote_results ⟨students, votes, some s⟩ Candidate.Ronaldo) with
        _ | w
      · rw [hr] at h
        simp at h
      · exact ⟨h₂.1, ⟨s, rfl, by revert h₁; cases s.autoDeclareWinner <;>
          simp⟩, h₂.2.2, rfl⟩
  · intro db sess now h
    rcases db with ⟨students, votes, _ | s⟩
    · rfl
    · simp only [auto_declare_winner_if_time_ended]
      split_ifs with h₁ h₂
      · rfl
      · exact absurd h₂.2.2 (by simp [h])
      · rfl
  · intro db sess now s e ad h
    unfold set_schedule_form at h ⊢
    split_ifs at h ⊢ with h₁ h₂
    exact ⟨rfl, rfl⟩

/-- Witness for `auto_declare_fires_once`: with the marker already set, a
call at an ended window with votes present declares nothing and leaves the
session unchanged. -/
theorem auto_declare_fires_once_witness :
    auto_declare_winner_if_time_ended
      ⟨[("AB12", "Ann")], [⟨"AB12", Candidate.Messi⟩],
        some ⟨some 0, some 1, true, true⟩⟩
      ⟨true, some Winner.Messi, true, true⟩ 5 =
      (⟨true, some Winner.Messi, true, true⟩, false) :=
  auto_declare_fires_once.2.1
    ⟨[("AB12", "Ann")], [⟨"AB12", Candidate.Messi⟩],
      some ⟨some 0, some 1, true, true⟩⟩
    ⟨true, some Winner.Messi, true, true⟩ 5 rfl

/-- C8: a registration-form submission is rejected as invalid input — with
the store unchanged — exactly when, after `.strip().upper()` /
`.strip().title()` normalisation, the register number is shorter than 3
characters (which subsumes empty) or the name is shorter than 2
characters; otherwise it proceeds to the insert in `register_student`. -/
theorem signup_validation (db : DB) (rn nm : String) :
    ((signup_submit db rn nm).2 = RegOutcome.invalid_input ↔
      ((normReg rn).length < 3 ∨ (pyTitle (pyStrip nm)).length < 2)) ∧
    ((signup_submit db rn nm).2 = RegOutcome.invalid_input →
      (signup_submit db rn nm).1 = db) := by
  simp only [signup_submit]
  split_ifs with h₁ h₂ h₃
  · rcases Bool.or_eq_true_iff.mp h₁ with h | h <;>
      rw [beq_iff_eq] at h <;> simp [h]
  · simp [h₂]
  · simp [h₃]
  · rcases hreg : register_student db (normReg rn) (pyTitle (pyStrip nm)) with
      ⟨db', b⟩
    cases b <;> simp_all

/-- Witness for `signup_validation`: the two-character register number
`"ab"` is rejected as invalid input. -/
theorem signup_validation_witness :
    (signup_submit ⟨[], [], none⟩ "ab" "Jones").2 = RegOutcome.invalid_input :=
  (signup_validation ⟨[], [], none⟩ "ab" "Jones").1.mpr (by decide)

/-- C9: registration stores the register number trimmed and upper-cased
(concretely, registering `"  ab12  "` stores key `AB12`); `cast_vote`
stores the same normalised key; the lookups `is_student_registered` and
`has_student_voted` depend only on the normalised argument; and for every
stored student, `is_student_registered` returns `true` on any variant
whose normalisation equals the stored key. -/
theorem normalization_roundtrip :
    (∀ db rn nm db', register_student db rn nm = (db', true) →
      db'.students = db.students ++ [(normReg rn, pyTitle (pyStrip nm))]) ∧
    (∀ db rn c, (cast_vote db rn c).1.votes = db.votes ++ [⟨normReg rn, c⟩]) ∧
    (∀ db v w, normReg v = normReg w →
      is_student_registered db v = is_student_registered db w ∧
      has_student_voted db v = has_student_voted db w) ∧
    (∀ db v k nm, (k, nm) ∈ db.students → normReg v = k →
      is_student_registered db v = true) ∧
    (register_student ⟨[], [], none⟩ "  ab12  " "ann lee").1.students =
      [("AB12", "Ann Lee")] := by
  refine ⟨?_, ?_, ?_, ?_, by decide⟩
  · intro db rn nm db' h
    simp only [register_student] at h
    split_ifs at h with h₁
    · simp at h
    · simpa using congrArg (fun p => p.1.students) h |>.symm
  · intro db rn c
    rfl
  · intro db v w h
    unfold is_student_registered has_student_voted
    rw [h]
    exact ⟨rfl, rfl⟩
  · intro db v k nm hmem hnorm
    unfold is_student_registered
    exact List.any_eq_true.mpr ⟨(k, nm), hmem, by simp [hnorm]⟩

/-- Witness for `normalization_roundtrip`: with key `AB12` stored, the
variant `" ab12 "` is recognised as registered. -/
theorem normalization_roundtrip_witness :
    is_student_registered ⟨[("AB12", "Ann Lee")], [], none⟩ " ab12 " = true :=
  normalization_roundtrip.2.2.2.1 ⟨[("AB12", "Ann Lee")], [], none⟩ " ab12 "
    "AB12" "Ann Lee" (by decide) (by decide)

end Voting
